import Mathlib

/-!
Verification of the ResumeGuide repository (a Streamlit app plus a Google ADK
agent wrapper) against its natural-language specification.

The development shallowly embeds the two source files:
  - app.py: the eight tool functions operating on the shared student-profile
    record kept in Streamlit session state;
  - utils.py: the credential scan and the Agent adapter (construction, chat,
    the event-stream fold of _run_agent, and clear_memory).

Conventions of the embedding:
  - Python strings are Lean String; lower/strip/split/substring tests are
    implemented over List Char to mirror the Python string methods.
  - Python dict/list state is a Lean structure with Option fields; a dict
    subscription that can raise KeyError is modelled in the Except monad.
  - print side effects (trace lines) are dropped: they never influence a
    returned value.
  - id(self) is an abstract Nat token, and the builtin hash on strings is an
    abstract function parameter: both are fixed for the life of a process.
-/

/-! ## String helpers mirroring Python string methods -/

/-- Lowercase every character, as the Python str.lower method does on the
ASCII inputs used by the tools. -/
def pyLower (s : String) : String := String.mk (s.data.map Char.toLower)

/-- Leading and trailing whitespace removal, as the Python str.strip method. -/
def pyStrip (s : String) : String :=
  String.mk (((s.data.dropWhile Char.isWhitespace).reverse.dropWhile Char.isWhitespace).reverse)

/-- Split a character list at commas; the empty list yields one empty group,
matching the Python str.split behaviour with an explicit separator. -/
def splitCommaAux : List Char → List (List Char)
  | [] => [[]]
  | c :: rest =>
    let r := splitCommaAux rest
    if c = ',' then [] :: r
    else match r with
      | g :: gs => (c :: g) :: gs
      | [] => [[c]]

/-- Python s.split after a comma separator. -/
def pySplitComma (s : String) : List String :=
  (splitCommaAux s.data).map String.mk

/-- Does the first character list start the second, helper for substring
membership. -/
def startsWithL : List Char → List Char → Bool
  | [], _ => true
  | _ :: _, [] => false
  | n :: ns, h :: hs => n = h && startsWithL ns hs

/-- Substring occurrence of the first list inside the second. -/
def hasSubL (needle : List Char) : List Char → Bool
  | [] => needle.isEmpty
  | h :: hs => startsWithL needle (h :: hs) || hasSubL needle hs

/-- The Python membership test: needle in hay, on strings. -/
def strContains (hay needle : String) : Bool := hasSubL needle.data hay.data

/-- The Python separator.join on a list of strings. -/
def joinWith (sep : String) : List String → String
  | [] => ""
  | [x] => x
  | x :: xs => x ++ sep ++ joinWith sep xs

/-- The Python repr of a list of strings, as produced by an f-string holding a
list value: single-quoted items, comma separated, in brackets. -/
def pyReprStrList (l : List String) : String :=
  "[" ++ joinWith ", " (l.map fun s => "\x27" ++ s ++ "\x27") ++ "]"

/-! ## Student profile state (the st.session_state.student_data dict) -/

/-- One saved project entry, the dict with title and desc keys built by
save_project in app.py. -/
structure Project where
  title : String
  desc : String
deriving DecidableEq, Repr

/-- The shared student_data dict of app.py. Each Option field is none exactly
when the corresponding key is absent from the dict. -/
structure StudentData where
  branch : Option String
  skills : Option (List String)
  projects : Option (List Project)
deriving DecidableEq, Repr

/-- The empty student_data dict created at application start. -/
def emptyStudentData : StudentData := { branch := none, skills := none, projects := none }

/-- The Python repr of one project dict. The source prints dicts with
insertion order title then desc. -/
def reprProject (p : Project) : String :=
  "\x7b\x27title\x27: \x27" ++ p.title ++ "\x27, \x27desc\x27: \x27" ++ p.desc ++ "\x27\x7d"

/-- The str() of the student_data dict, as read by get_profile. The source
prints keys in dict insertion order; the embedding fixes the order branch,
skills, projects, which no verified claim observes. -/
def reprStudentData (st : StudentData) : String :=
  let entries :=
    (match st.branch with
      | some b => ["\x27branch\x27: \x27" ++ b ++ "\x27"]
      | none => []) ++
    (match st.skills with
      | some l => ["\x27skills\x27: " ++ pyReprStrList l]
      | none => []) ++
    (match st.projects with
      | some ps => ["\x27projects\x27: [" ++ joinWith ", " (ps.map reprProject) ++ "]"]
      | none => [])
  "\x7b" ++ joinWith ", " entries ++ "\x7d"

/-! ## Tool functions of app.py

Each tool returns in the Except monad: an `.error` value stands for a raised
Python exception. The only fallible operation any tool performs is a dict
subscription (student_data[key]), which raises KeyError when the key is
absent; every other operation used (split, strip, lower, isdigit, membership,
join, append, assignment) is total. -/

/-- save_branch of app.py: store the branch and report it. -/
def save_branch (branch : String) (st : StudentData) : Except String (String × StudentData) :=
  .ok ("✅ Branch saved: " ++ branch, { st with branch := some branch })

/-- The skills list computed by save_skills: split at commas, strip each. -/
def parseSkills (skills : String) : List String := (pySplitComma skills).map pyStrip

/-- save_skills of app.py: replace the skills entry wholesale, then format the
freshly stored entry by subscripting the dict (a KeyError if it were absent). -/
def save_skills (skills : String) (st : StudentData) : Except String (String × StudentData) :=
  let st1 : StudentData := { st with skills := some (parseSkills skills) }
  match st1.skills with
  | some l => .ok ("✅ Skills saved: " ++ pyReprStrList l, st1)
  | none => .error "KeyError: skills"

/-- save_project of app.py: initialise the projects entry to an empty list
when the key is absent, then subscript it and append the new project dict. -/
def save_project (title description : String) (st : StudentData) : Except String (String × StudentData) :=
  let st1 := if st.projects.isNone then { st with projects := some ([] : List Project) } else st
  match st1.projects with
  | some ps => .ok ("✅ Project added: " ++ title, { st1 with projects := some (ps ++ [{ title := title, desc := description }]) })
  | none => .error "KeyError: projects"

/-- get_profile of app.py: the str of the dict when it is non-empty (Python
truthiness of a dict), a fixed message otherwise. -/
def get_profile (st : StudentData) : Except String String :=
  .ok (if st.branch.isNone && st.skills.isNone && st.projects.isNone
       then "No data yet."
       else reprStudentData st)

/-- The HOT_SKILLS list of check_skill_demand. -/
def HOT_SKILLS : List String :=
  ["python", "react", "machine learning", "aws", "docker", "kubernetes", "typescript", "golang"]

/-- check_skill_demand of app.py: lowercase membership in HOT_SKILLS decides
between the high-demand message and the generic suggestion. -/
def check_skill_demand (skill : String) : Except String String :=
  .ok (if HOT_SKILLS.contains (pyLower skill)
       then "🔥 \x27" ++ skill ++ "\x27 is HIGH DEMAND in 2024-25!"
       else "\x27" ++ skill ++ "\x27 is useful but consider adding trending skills like Python, React, or AWS.")

/-- The action-verb list scanned by analyze_project. -/
def ACTION_WORDS : List String := ["built", "developed", "created", "implemented", "designed"]

/-- analyze_project of app.py: collect up to three issue strings in source
order, then either the success banner or the joined warning. -/
def analyze_project (title description : String) : Except String String :=
  let issues :=
    (if description.length < 20 then ["Too short - add more details"] else []) ++
    (if !(ACTION_WORDS.any fun w => strContains (pyLower description) w)
     then ["Use action verbs (built, developed, created)"] else []) ++
    (if !(description.data.any Char.isDigit)
     then ["Add metrics/numbers (e.g., \x2750% faster\x27, \x271000 users\x27)"] else [])
  .ok (if issues.isEmpty
       then "✅ Project description looks strong!"
       else "⚠️ Improvements needed: " ++ joinWith ", " issues)

/-- get_industry_trends of app.py: the TRENDS dict lookup on the lowercased
branch, with the dict get default for unknown branches. -/
def get_industry_trends (branch : String) : Except String String :=
  let b := pyLower branch
  .ok (if b = "cse" then "🚀 AI/ML, Cloud Computing, Cybersecurity are hot. Remote work is common. Focus on DSA + System Design."
       else if b = "ece" then "📡 IoT, Embedded Systems, 5G. Hardware + Software hybrid roles are growing. Learn Python for automation."
       else if b = "mechanical" then "⚡ EV industry is booming. CAD/CAM + Python automation highly valued. Consider robotics."
       else if b = "civil" then "🏗️ Sustainable construction, BIM software. Green building certifications help stand out."
       else if b = "electrical" then "🔋 Renewable energy, Power Electronics, Smart Grid. Python + MATLAB are useful."
       else "Focus on interdisciplinary skills + coding basics. Python is universal.")

/-- suggest_certifications of app.py: substring checks on the lowercased
skills string accumulate recommendations, with a fallback when none match. -/
def suggest_certifications (skills : String) : Except String String :=
  let sl := pyLower skills
  let certs :=
    (if strContains sl "python" then ["Google Professional ML Engineer"] else []) ++
    (if strContains sl "cloud" || strContains sl "aws" then ["AWS Solutions Architect"] else []) ++
    (if strContains sl "react" || strContains sl "frontend" then ["Meta Front-End Developer"] else []) ++
    (if strContains sl "data" then ["Google Data Analytics Certificate"] else [])
  let certs := if certs.isEmpty then ["Google IT Support Certificate (good starting point)"] else certs
  .ok ("📜 Recommended: " ++ joinWith ", " certs)

/-! ## Credential scan of utils.py -/

/-- The two fields the credential scan reads from a parsed JSON file via
data.get: each is none when the key is absent (or holds a non-string value,
which compares unequal to the service-account tag just as none does). -/
structure JsonData where
  jtype : Option String
  project_id : Option String
deriving DecidableEq, Repr

/-- One *.json file in the working directory: its name and, when json.load
succeeds, its parsed content; none models a parse failure, which the scan
skips over. -/
structure CredFile where
  fname : String
  parsed : Option JsonData
deriving DecidableEq, Repr

/-- The _get_project_id scan of utils.py: walk the glob result in order,
skip unparsable files, and stop at the first file whose type field equals
"service_account", returning its project_id value (possibly absent) and its
name. -/
def getProjectId : List CredFile → Option String × Option String
  | [] => (none, none)
  | f :: fs =>
    match f.parsed with
    | none => getProjectId fs
    | some d =>
      if d.jtype = some "service_account" then (d.project_id, some f.fname)
      else getProjectId fs

/-- The _setup_vertex_auth step of utils.py: raise the configuration error
when the scan yields no truthy project id (absent or empty), otherwise
return the project id and the location (environment override or the fixed
default region). The environment-variable writes are process-global side
effects the claims do not observe. -/
def setupVertexAuth (files : List CredFile) (envLocation : Option String) : Except String (String × String) :=
  match (getProjectId files).1 with
  | none => .error "⚠️ No service account JSON found! Place your GCP JSON in this folder."
  | some p =>
    if p = "" then .error "⚠️ No service account JSON found! Place your GCP JSON in this folder."
    else .ok (p, envLocation.getD "us-central1")

/-! ## Agent adapter of utils.py -/

/-- The mutable fields of one Agent instance that the claims observe. instId
models the Python id(self) token, fixed for the life of the instance. The
external ADK agent, runner and the shared session service are environment
objects the embedding leaves abstract. -/
structure AgentState where
  name : String
  modelName : String
  instruction : String
  instId : Nat
  user_id : String
  session_id : String
  session_created : Bool
deriving DecidableEq, Repr

/-- The field assignments of Agent.__init__ after authentication succeeds:
the namespaced user id and the initial session id derived from the name and
the instance identity, with the session marked not yet created. -/
def agentInit (name modelName instruction : String) (instId : Nat) : AgentState :=
  { name := name
    modelName := modelName
    instruction := instruction
    instId := instId
    user_id := "user_" ++ name
    session_id := "session_" ++ name ++ "_" ++ toString instId
    session_created := false }

/-- Agent construction: Agent.__init__ first runs _setup_vertex_auth, whose
error aborts construction; on success the instance fields are initialised. -/
def agentConstruct (name modelName instruction : String) (instId : Nat)
    (files : List CredFile) (envLocation : Option String) : Except String AgentState :=
  (setupVertexAuth files envLocation).map fun _ => agentInit name modelName instruction instId

/-! ## The event stream consumed by _run_agent -/

/-- A function_call payload on an event part; only its presence and the
printed trace use it. -/
structure FunctionCall where
  name : String
  args : String
deriving DecidableEq, Repr

/-- One part of an event content: the two optional fields _run_agent reads.
A some "" text field is falsy in Python and treated like an absent one. -/
structure EventPart where
  function_call : Option FunctionCall
  text : Option String
deriving DecidableEq, Repr

/-- The content of an event: its list of parts. -/
structure Content where
  parts : List EventPart
deriving DecidableEq, Repr

/-- One event of the runner stream; content is none when the event carries no
truthy content attribute. The actions attribute only feeds trace printing and
never the returned value, so the embedding drops it. -/
structure Event where
  content : Option Content
deriving DecidableEq, Repr

/-- The per-part step of the _run_agent loop: a truthy function_call is
traced and skipped by the elif, a truthy (non-empty) text overwrites the
running final response, anything else leaves it unchanged. -/
def partStep (acc : String) (p : EventPart) : String :=
  match p.function_call with
  | some _ => acc
  | none =>
    match p.text with
    | some t => if t = "" then acc else t
    | none => acc

/-- The per-event step of the _run_agent loop: fold the parts of a truthy
content, skip an event without one. -/
def eventStep (acc : String) (e : Event) : String :=
  match e.content with
  | some c => c.parts.foldl partStep acc
  | none => acc

/-- The body of _run_agent: fold the event stream starting from the empty
final response, then return it, or the placeholder when it is still empty
(Python truthiness of the string). The message is what run_async submits;
the stream passed in is the turn it produces. -/
def runAgent (message : String) (events : List Event) : String :=
  let finalResponse := events.foldl eventStep ""
  if finalResponse = "" then "No response generated." else finalResponse

/-- What one chat call yields: the session id it addressed, the returned
response text, and the instance state afterwards. -/
structure ChatResult where
  addressed : String
  response : String
  post : AgentState
deriving DecidableEq, Repr

/-- chat of utils.py: the asyncio bridging returns the _run_agent value
unchanged; _run_agent first ensures the session named by the current
session_id exists (setting _session_created) and then folds the stream.
The addressed session id is read from the instance, never written. -/
def chat (st : AgentState) (message : String) (events : List Event) : ChatResult :=
  { addressed := st.session_id
    response := runAgent message events
    post := { st with session_created := true } }

/-- clear_memory of utils.py: overwrite the session id with the string built
from the name, the instance identity and the Python hash of the printed
instance identity (pyHash models the process-fixed builtin hash), and mark
the session not yet created. -/
def clear_memory (pyHash : String → Int) (st : AgentState) : AgentState :=
  { st with
    session_id := "session_" ++ st.name ++ "_" ++ toString st.instId ++ "_" ++ toString (pyHash (toString st.instId))
    session_created := false }

/-! ## Derived notions used by the claims -/

/-- A text-bearing part in the sense of the specification: its text field is
present and non-empty, regardless of the other fields. -/
def textBearing (p : EventPart) : Bool :=
  match p.text with
  | some t => t != ""
  | none => false

/-- A stream without any text-bearing part in any event content. -/
def noTextBearing (evs : List Event) : Bool :=
  evs.all fun e =>
    match e.content with
    | some c => c.parts.all fun p => !(textBearing p)
    | none => true

/-- The text a part contributes to the final response in the _run_agent loop:
present only when the part carries no function_call and a non-empty text. -/
def partText (p : EventPart) : Option String :=
  match p.function_call with
  | some _ => none
  | none =>
    match p.text with
    | some t => if t = "" then none else some t
    | none => none

/-- All texts that can overwrite the final response, in event-stream order. -/
def collectTexts : List Event → List String
  | [] => []
  | e :: es =>
    (match e.content with
     | some c => c.parts.filterMap partText
     | none => []) ++ collectTexts es

/-- All non-empty texts of text-bearing parts in stream order, following the
wording of the specification (which does not except parts that also carry a
function_call). -/
def textBearingTexts : List Event → List String
  | [] => []
  | e :: es =>
    (match e.content with
     | some c => c.parts.filterMap fun p =>
         match p.text with
         | some t => if t = "" then none else some t
         | none => none
     | none => []) ++ textBearingTexts es

/-- A valid credential file in the sense of the specification: it parses as a
JSON object whose type equals "service_account" and which has a project_id
field. -/
def validCredFile (f : CredFile) : Bool :=
  match f.parsed with
  | some d => decide (d.jtype = some "service_account") && d.project_id.isSome
  | none => false

/-- The first file of the scan order that parses with the service-account
tag, the file at which _get_project_id stops. -/
def firstServiceAccount : List CredFile → Option JsonData
  | [] => none
  | f :: fs =>
    match f.parsed with
    | none => firstServiceAccount fs
    | some d =>
      if d.jtype = some "service_account" then some d else firstServiceAccount fs

/-! ## Helper lemmas about the event fold -/

theorem partStep_getD (acc : String) (p : EventPart) :
    partStep acc p = (partText p).getD acc := by
  unfold partStep partText
  cases p.function_call with
  | some fc => rfl
  | none =>
    cases p.text with
    | none => rfl
    | some t => by_cases h : t = "" <;> simp [h]

theorem foldl_partStep (ps : List EventPart) :
    ∀ acc : String, ps.foldl partStep acc = (ps.filterMap partText).getLastD acc := by
  induction ps with
  | nil => intro acc; rfl
  | cons p ps ih =>
    intro acc
    rw [List.foldl_cons, List.filterMap_cons, partStep_getD]
    cases hp : partText p with
    | none => exact ih acc
    | some t => rw [ih, List.getLastD_cons]; rfl

theorem appendGetLastD {α : Type} (l1 l2 : List α) (d : α) :
    (l1 ++ l2).getLastD d = l2.getLastD (l1.getLastD d) := by
  induction l1 generalizing d with
  | nil => rfl
  | cons a l1 ih => rw [List.cons_append, List.getLastD_cons, List.getLastD_cons, ih]

theorem foldl_eventStep (evs : List Event) :
    ∀ acc : String, evs.foldl eventStep acc = (collectTexts evs).getLastD acc := by
  induction evs with
  | nil => intro acc; rfl
  | cons e es ih =>
    intro acc
    have hstep : eventStep acc e =
        ((match e.content with
          | some c => c.parts.filterMap partText
          | none => ([] : List String))).getLastD acc := by
      unfold eventStep
      cases e.content with
      | none => rfl
      | some c => exact foldl_partStep c.parts acc
    calc (e :: es).foldl eventStep acc
        = es.foldl eventStep (eventStep acc e) := by rw [List.foldl_cons]
      _ = (collectTexts es).getLastD (eventStep acc e) := ih _
      _ = (collectTexts es).getLastD ((match e.content with
            | some c => c.parts.filterMap partText
            | none => ([] : List String)).getLastD acc) := by rw [hstep]
      _ = ((match e.content with
            | some c => c.parts.filterMap partText
            | none => ([] : List String)) ++ collectTexts es).getLastD acc :=
          (appendGetLastD _ _ _).symm
      _ = (collectTexts (e :: es)).getLastD acc := rfl

theorem getLastD_mem {α : Type} : ∀ (l : List α) (d : α), l.getLastD d ∈ d :: l
  | [], d => List.mem_cons_self d []
  | a :: l, d => by
    rw [List.getLastD_cons]
    rcases List.mem_cons.mp (getLastD_mem l a) with h | h
    · rw [h]; exact List.mem_cons_of_mem d (List.mem_cons_self a l)
    · exact List.mem_cons_of_mem d (List.mem_cons_of_mem a h)

theorem partText_ne_empty {p : EventPart} {t : String} (h : partText p = some t) : t ≠ "" := by
  unfold partText at h
  split at h
  · simp at h
  · split at h
    · split at h
      · simp at h
      · cases h; assumption
    · simp at h

theorem collectTexts_ne_empty : ∀ (evs : List Event), ∀ t ∈ collectTexts evs, t ≠ "" := by
  intro evs
  induction evs with
  | nil => intro t ht; exact absurd ht (by simp [collectTexts])
  | cons e es ih =>
    intro t ht
    unfold collectTexts at ht
    rcases List.mem_append.mp ht with h | h
    · cases hc : e.content with
      | none => rw [hc] at h; exact absurd h (by simp)
      | some c =>
        rw [hc] at h
        obtain ⟨p, _, hp⟩ := List.mem_filterMap.mp h
        exact partText_ne_empty hp
    · exact ih t h

theorem runAgent_eq (message : String) (evs : List Event) :
    runAgent message evs = (collectTexts evs).getLastD "No response generated." := by
  unfold runAgent
  rw [foldl_eventStep]
  cases h : collectTexts evs with
  | nil => simp
  | cons a l =>
    rw [List.getLastD_cons, List.getLastD_cons]
    have hne : l.getLastD a ≠ "" := by
      apply collectTexts_ne_empty evs
      rw [h]
      exact getLastD_mem l a
    rw [if_neg hne]

theorem partText_eq_none_of_not_textBearing {p : EventPart} (h : textBearing p = false) :
    partText p = none := by
  unfold textBearing at h
  unfold partText
  cases hfc : p.function_call with
  | some fc => rfl
  | none =>
    cases ht : p.text with
    | none => rfl
    | some t =>
      rw [ht] at h
      simp at h
      simp [h]

theorem collectTexts_eq_nil {evs : List Event} (h : noTextBearing evs = true) :
    collectTexts evs = [] := by
  induction evs with
  | nil => rfl
  | cons e es ih =>
    unfold noTextBearing at h
    rw [List.all_cons, Bool.and_eq_true] at h
    unfold collectTexts
    rw [ih h.2]
    cases hc : e.content with
    | none => rfl
    | some c =>
      have h1 := h.1
      rw [hc] at h1
      have : ∀ p ∈ c.parts, partText p = none := by
        intro p hp
        have := List.all_eq_true.mp h1 p hp
        exact partText_eq_none_of_not_textBearing (by simpa using this)
      simp [List.filterMap_eq_nil_iff.mpr this]

/-! ## Helper lemmas about the credential scan -/

theorem getProjectId_fst (files : List CredFile) :
    (getProjectId files).1 = (firstServiceAccount files).bind JsonData.project_id := by
  induction files with
  | nil => rfl
  | cons f fs ih =>
    unfold getProjectId firstServiceAccount
    cases hp : f.parsed with
    | none => exact ih
    | some d =>
      show (if d.jtype = some "service_account" then (d.project_id, some f.fname)
            else getProjectId fs).1
          = (if d.jtype = some "service_account" then some d
             else firstServiceAccount fs).bind JsonData.project_id
      by_cases h : d.jtype = some "service_account"
      · rw [if_pos h, if_pos h]; rfl
      · rw [if_neg h, if_neg h]; exact ih

theorem agentConstruct_isOk (name modelName instruction : String) (instId : Nat)
    (files : List CredFile) (envLocation : Option String) :
    (agentConstruct name modelName instruction instId files envLocation).isOk
      = (setupVertexAuth files envLocation).isOk := by
  unfold agentConstruct
  cases h : setupVertexAuth files envLocation <;> rfl

/-! ## The claims -/

/-- Claim C1, counterexample. The claim states that clear_memory followed by
chat uses a session identifier different from any previously used one,
including identifiers produced by earlier clear_memory calls on the same
instance. On the code, the identifier written by clear_memory is a fixed
function of the instance (name, id(self), hash(str(id(self)))), so the chat
after a second clear_memory addresses exactly the identifier already used by
the chat after the first clear_memory. Concrete instance: name ProfileBot,
instance token 140123, a process hash valuing 7 on every string. -/
theorem clear_memory_twice_reuses_session_id :
    (chat (clear_memory (fun _ => (7 : Int))
        ((chat (clear_memory (fun _ => (7 : Int))
            (agentInit "ProfileBot" "gemini-2.0-flash" "" 140123)) "hi" []).post)) "again" []).addressed
      = (chat (clear_memory (fun _ => (7 : Int))
          (agentInit "ProfileBot" "gemini-2.0-flash" "" 140123)) "hi" []).addressed := rfl

/-- Claim C1, amended. After clear_memory, chat addresses an identifier
different from the instance's initial session identifier (the rewritten
identifier strictly extends it by the hash suffix), and the identifier is
unchanged by chat; but clear_memory is deterministic per instance, so a later
clear_memory (after any chats) writes exactly the same identifier again
rather than a fresh one. -/
theorem clear_memory_changes_id_but_repeats (pyHash : String → Int)
    (name modelName instruction : String) (instId : Nat) (message : String)
    (events : List Event) :
    (clear_memory pyHash
        ((chat (clear_memory pyHash (agentInit name modelName instruction instId))
          message events).post)).session_id
      = (clear_memory pyHash (agentInit name modelName instruction instId)).session_id
    ∧ (clear_memory pyHash (agentInit name modelName instruction instId)).session_id
      ≠ (agentInit name modelName instruction instId).session_id := by
  constructor
  · rfl
  · intro h
    have hlen := congrArg String.length h
    have hform : (clear_memory pyHash (agentInit name modelName instruction instId)).session_id
        = (agentInit name modelName instruction instId).session_id
          ++ ("_" ++ toString (pyHash (toString instId))) := by
      unfold clear_memory agentInit
      simp [String.append_assoc]
    rw [hform, String.length_append, String.length_append] at hlen
    have hone : ("_" : String).length = 1 := rfl
    rw [hone] at hlen
    omega

/-- Claim C4: chat never writes the session-identifier field, so two
consecutive chat calls on the same adapter with no intervening clear_memory
address the same session identifier. -/
theorem chat_preserves_session_id (st : AgentState) (m1 m2 : String)
    (e1 e2 : List Event) :
    (chat st m1 e1).post.session_id = st.session_id
    ∧ (chat ((chat st m1 e1).post) m2 e2).addressed = (chat st m1 e1).addressed :=
  ⟨rfl, rfl⟩

/-- The concrete working directory refuting claim C5: the first file in glob
order parses with the service-account tag but has no project_id key, the
second is a fully valid credential file. -/
def filesC5 : List CredFile :=
  [{ fname := "a.json", parsed := some { jtype := some "service_account", project_id := none } },
   { fname := "b.json", parsed := some { jtype := some "service_account", project_id := some "proj-1" } }]

/-- Claim C5, counterexample. A valid credential file (service_account type
with a project_id field) is present in the directory, yet adapter
construction fails: the scan stops at the earlier service-account file that
lacks project_id, and _setup_vertex_auth raises on the missing id. -/
theorem construct_fails_despite_valid_later_file :
    filesC5.any validCredFile = true
    ∧ (agentConstruct "ProfileBot" "gemini-2.0-flash" "" 140123 filesC5 none).isOk = false :=
  ⟨rfl, rfl⟩

/-- Claim C5, amended. Adapter construction succeeds exactly when the first
file in scan order that parses as JSON with type "service_account" carries a
non-empty project_id; any valid credential file occurring after a
service-account file without a usable project_id does not help, and when the
scan finds nothing usable the construction raises the configuration error
every time. -/
theorem construct_ok_iff_first_service_account_has_project
    (name modelName instruction : String) (instId : Nat)
    (files : List CredFile) (envLocation : Option String) :
    (agentConstruct name modelName instruction instId files envLocation).isOk = true
      ↔ ∃ d p, firstServiceAccount files = some d ∧ d.project_id = some p ∧ p ≠ "" := by
  rw [agentConstruct_isOk]
  have hsetup : (setupVertexAuth files envLocation).isOk = true
      ↔ ∃ p, (getProjectId files).1 = some p ∧ p ≠ "" := by
    unfold setupVertexAuth
    cases hg : (getProjectId files).1 with
    | none => simp [Except.isOk, Except.toBool]
    | some p =>
      by_cases hpe : p = "" <;> simp [Except.isOk, Except.toBool, hpe]
  rw [hsetup, getProjectId_fst]
  cases hfa : firstServiceAccount files with
  | none => simp
  | some d =>
    cases hp : d.project_id with
    | none => simp [Option.bind, hp]
    | some p => simp [Option.bind, hp]

/-- Claim C2: when no event of the turn carries a text-bearing part (a part
with a non-empty text field), chat returns exactly the placeholder string. -/
theorem chat_returns_placeholder_without_text (st : AgentState) (message : String)
    (events : List Event) (h : noTextBearing events = true) :
    (chat st message events).response = "No response generated." := by
  show runAgent message events = _
  rw [runAgent_eq, collectTexts_eq_nil h]
  rfl

/-- A concrete text-free turn: one event holding a tool call and a part with
an empty (falsy) text, one event without content. -/
def eventsC2 : List Event :=
  [{ content := some { parts :=
      [{ function_call := some { name := "save_branch", args := "branch: CSE" }, text := none },
       { function_call := none, text := some "" }] } },
   { content := none }]

/-- Claim C2, witness: the placeholder is returned on the concrete text-free
turn above. -/
theorem chat_returns_placeholder_without_text_witness :
    noTextBearing eventsC2 = true
    ∧ (chat (agentInit "ProfileBot" "gemini-2.0-flash" "" 1) "hello" eventsC2).response
        = "No response generated." :=
  ⟨rfl, chat_returns_placeholder_without_text _ _ _ rfl⟩

/-- The concrete turn refuting claim C3: two text-bearing parts, the last of
which also carries a function_call. -/
def eventsC3c : List Event :=
  [{ content := some { parts :=
      [{ function_call := none, text := some "A" },
       { function_call := some { name := "check_skill_demand", args := "skill: Python" },
         text := some "B" }] } }]

/-- Claim C3, counterexample. The turn above yields two text-bearing parts
(non-empty text fields) whose last text in stream order is "B", yet chat
returns "A": the elif in the _run_agent loop never reads the text of a part
that also carries a truthy function_call. -/
theorem chat_skips_text_on_function_call_part :
    (textBearingTexts eventsC3c).length = 2
    ∧ (textBearingTexts eventsC3c).getLastD "" = "B"
    ∧ (chat (agentInit "ReviewerBot" "gemini-2.0-flash" "" 2) "check" eventsC3c).response = "A"
    ∧ ("A" : String) ≠ "B" :=
  ⟨rfl, rfl, rfl, by decide⟩

/-- Claim C3, amended: for every turn yielding two or more parts that carry a
non-empty text and no function_call, chat returns exactly the text of the
last such part in event-stream order (collectTexts lists those texts in
order), not a concatenation. -/
theorem chat_returns_last_plain_text (st : AgentState) (message : String)
    (events : List Event) (h : 2 ≤ (collectTexts events).length) :
    (chat st message events).response = (collectTexts events).getLastD "" := by
  show runAgent message events = _
  rw [runAgent_eq]
  cases hc : collectTexts events with
  | nil => rw [hc] at h; simp at h
  | cons a l => rw [List.getLastD_cons, List.getLastD_cons]

/-- A concrete turn with two plain text fragments across two events. -/
def eventsC3w : List Event :=
  [{ content := some { parts := [{ function_call := none, text := some "first draft" }] } },
   { content := some { parts := [{ function_call := none, text := some "final answer" }] } }]

/-- Claim C3, witness for the amended statement: on the concrete turn above
the response is the last plain text. -/
theorem chat_returns_last_plain_text_witness :
    2 ≤ (collectTexts eventsC3w).length
    ∧ (chat (agentInit "CoachBot" "gemini-2.0-flash" "" 3) "advise" eventsC3w).response
        = (collectTexts eventsC3w).getLastD "" :=
  ⟨by decide, chat_returns_last_plain_text _ _ _ (by decide)⟩

/-- Claim C6: on the short, verb-free, digit-free description the analysis
warns about all three deficiencies in source order, and on the strong
description it returns the success string. -/
theorem analyze_project_spec_cases :
    analyze_project "X" "did stuff"
      = .ok ("⚠️ Improvements needed: Too short - add more details, "
          ++ "Use action verbs (built, developed, created), "
          ++ "Add metrics/numbers (e.g., \x2750% faster\x27, \x271000 users\x27)")
    ∧ analyze_project "X" "Built a 50% faster caching layer serving 1000 users"
      = .ok "✅ Project description looks strong!" := by
  constructor
  · rfl
  · rfl

/-- Claim C7: the hot-skill lookup is case-insensitive on the query, so both
capitalisations of Python get the high-demand message, while cobol gets the
generic suggestion. -/
theorem check_skill_demand_spec_cases :
    check_skill_demand "Python" = .ok "🔥 \x27Python\x27 is HIGH DEMAND in 2024-25!"
    ∧ check_skill_demand "python" = .ok "🔥 \x27python\x27 is HIGH DEMAND in 2024-25!"
    ∧ check_skill_demand "cobol"
        = .ok "\x27cobol\x27 is useful but consider adding trending skills like Python, React, or AWS." :=
  ⟨rfl, rfl, rfl⟩

/-- Claim C8: saving skills twice fully replaces the list with the parse of
the second string regardless of the first or of the prior state, and saving
two projects appends both in order after whatever was already stored. -/
theorem save_skills_replaces_and_save_project_appends
    (st : StudentData) (s1 s2 t1 d1 t2 d2 : String) :
    ((save_skills s1 st).bind fun r => save_skills s2 r.2)
      = .ok ("✅ Skills saved: " ++ pyReprStrList (parseSkills s2),
             { st with skills := some (parseSkills s2) })
    ∧ ((save_project t1 d1 st).bind fun r => save_project t2 d2 r.2)
      = .ok ("✅ Project added: " ++ t2,
             { st with projects := some (st.projects.getD []
                 ++ [{ title := t1, desc := d1 }, { title := t2, desc := d2 }]) }) := by
  constructor
  · rfl
  · obtain ⟨b, sk, pr⟩ := st
    cases pr with
    | none => rfl
    | some ps => simp [save_project, Except.bind, List.append_assoc]

/-- Claim C9: for all string arguments and any profile state, each of the
eight tool functions returns normally (no raised exception: the result is an
ok value carrying the report string). -/
theorem tools_never_raise (st : StudentData) (b sk t d s br cs : String) :
    (save_branch b st).isOk = true ∧ (save_skills sk st).isOk = true
    ∧ (save_project t d st).isOk = true ∧ (get_profile st).isOk = true
    ∧ (check_skill_demand s).isOk = true ∧ (analyze_project t d).isOk = true
    ∧ (get_industry_trends br).isOk = true ∧ (suggest_certifications cs).isOk = true := by
  refine ⟨rfl, rfl, ?_, rfl, rfl, rfl, rfl, rfl⟩
  obtain ⟨b2, sk2, pr⟩ := st
  cases pr <;> rfl

/-- Claim C10: the hot-skill lookup is exact whole-string membership of the
lowercased query; whenever the lowercased input is not one of the eight
entries, the generic suggestion message is returned. -/
theorem check_skill_demand_exact_match_only (skill : String)
    (h : HOT_SKILLS.contains (pyLower skill) = false) :
    check_skill_demand skill
      = .ok ("\x27" ++ skill ++ "\x27 is useful but consider adding trending skills like Python, React, or AWS.") := by
  have hne : ¬(HOT_SKILLS.contains (pyLower skill) = true) := by
    rw [h]; exact Bool.false_ne_true
  unfold check_skill_demand
  rw [if_neg hne]

/-- Claim C10, witness: python3 lowercases to itself, is not an exact member
of the hot-skill list, and receives the generic suggestion. -/
theorem check_skill_demand_exact_match_only_witness :
    HOT_SKILLS.contains (pyLower "python3") = false
    ∧ check_skill_demand "python3"
        = .ok ("\x27" ++ "python3" ++ "\x27 is useful but consider adding trending skills like Python, React, or AWS.") :=
  ⟨by decide, check_skill_demand_exact_match_only "python3" (by decide)⟩
